import Mathlib

/-!
Shallow embedding of the delivery-prediction app (`src/App.py`), the quoting
engine (`predecir_envio`), the base estimators (`calcular_tiempo_base`,
`calcular_costo_base`), the registered modality/profile multiplier tables
(`MODALIDADES`, `PERFILES`), the model loading guard, the tab-1 feature
construction, and the tab-2 alert thresholds.  Real numbers of the source are
embedded as rationals (all constants in the source are decimal literals, so
every computation is exact over ℚ).
-/

namespace DeliveryApp

/-- A multiplier pair from the business-configuration dictionaries:
`{"tiempo": ..., "costo": ...}`. -/
structure Mult where
  tiempo : ℚ
  costo : ℚ
deriving Repr, DecidableEq

/-- `MODALIDADES` dictionary of `App.py` (lines 33-37): name → multiplier pair,
`none` when the key is absent (a Python `KeyError` on lookup). -/
def MODALIDADES : String → Option Mult
  | "económico" => some ⟨1.3, 0.8⟩
  | "estándar" => some ⟨1.0, 1.0⟩
  | "express" => some ⟨0.7, 1.5⟩
  | _ => none

/-- `PERFILES` dictionary of `App.py` (lines 39-42). -/
def PERFILES : String → Option Mult
  | "urgente" => some ⟨0.9, 1.2⟩
  | "económico" => some ⟨1.1, 0.8⟩
  | _ => none

/-- The keys of `MODALIDADES`, in insertion order (`MODALIDADES.keys()`). -/
def MODALIDAD_KEYS : List String := ["económico", "estándar", "express"]

/-- `calcular_tiempo_base` (App.py line 58): `(distancia_km / 50.0) + 2.0`. -/
def calcular_tiempo_base (distancia_km : ℚ) : ℚ :=
  (distancia_km / 50.0) + 2.0

/-- `calcular_costo_base` (App.py line 61):
`5.0 + (0.5 * distancia_km) + (1.0 * peso_kg)`; the Python default argument
`peso_kg = 10.0` is supplied explicitly at the call site in `predecir_envio`. -/
def calcular_costo_base (distancia_km : ℚ) (peso_kg : ℚ) : ℚ :=
  5.0 + (0.5 * distancia_km) + (1.0 * peso_kg)

/-- The feature record `datos_envio` handed to `predecir_envio`
(the eight `FEATURES` columns of App.py lines 44-53). -/
structure DatosEnvio where
  Distancia_KM : ℚ
  Trafico_Score : ℤ
  Riesgo_Clima : ℤ
  Ratio_Inv : ℚ
  Waiting_Time : ℚ
  Temperature : ℚ
  Humidity : ℚ
  Traffic_Num : ℤ
deriving Repr, DecidableEq

/-- The loaded classifier, treated as an opaque probability-producing function:
`float(modelo.predict_proba(df_input)[0][1])` for a given feature record. -/
def Modelo : Type := DatosEnvio → ℚ

/-- The risk tier strings `"alto"` / `"medio"` / `"bajo"` of `predecir_envio`. -/
inductive Riesgo where
  | alto
  | medio
  | bajo
deriving Repr, DecidableEq

/-- The dictionary returned by `predecir_envio` (App.py lines 91-96). -/
structure Resultado where
  prob_retraso : ℚ
  riesgo : Riesgo
  tiempo_horas : ℚ
  costo_usd : ℚ
deriving Repr, DecidableEq

/-- Error conditions of the quote engine: an unknown modality/profile key is a
Python `KeyError` on the configuration dictionaries (the spec's
`InvalidConfiguration`); a missing classifier is the spec's `UnavailableModel`. -/
inductive QuoteError where
  | invalidConfiguration
  | unavailableModel
deriving Repr, DecidableEq

/-- `predecir_envio` (App.py lines 64-96): risk-tier selection on the raw
probability, then base time/cost, then the tier, modality and profile
multipliers applied in sequence.  Dictionary lookups that would raise
`KeyError` in Python surface as `Except.error .invalidConfiguration`. -/
def predecir_envio (modelo : Modelo) (datos_envio : DatosEnvio)
    (modalidad : String) (perfil : String) : Except QuoteError Resultado :=
  let prob_retraso : ℚ := modelo datos_envio
  let distancia := datos_envio.Distancia_KM
  let tiempo_base := calcular_tiempo_base distancia
  let costo_base := calcular_costo_base distancia 10.0
  let tiempo_estimado :=
    if prob_retraso > 0.6 then tiempo_base * 1.5
    else if prob_retraso > 0.4 then tiempo_base * 1.2
    else tiempo_base
  let costo_estimado :=
    if prob_retraso > 0.6 then costo_base * 1.30
    else if prob_retraso > 0.4 then costo_base * 1.15
    else costo_base
  let riesgo :=
    if prob_retraso > 0.6 then Riesgo.alto
    else if prob_retraso > 0.4 then Riesgo.medio
    else Riesgo.bajo
  match MODALIDADES modalidad, PERFILES perfil with
  | some m, some p =>
    Except.ok
      ⟨prob_retraso, riesgo,
       tiempo_estimado * m.tiempo * p.tiempo,
       costo_estimado * m.costo * p.costo⟩
  | _, _ => Except.error QuoteError.invalidConfiguration

/-- The risk-tier time multiplier read off the branches of `predecir_envio`. -/
def riskTimeMult (p : ℚ) : ℚ :=
  if p > 0.6 then 1.5 else if p > 0.4 then 1.2 else 1.0

/-- The risk-tier cost multiplier read off the branches of `predecir_envio`. -/
def riskCostMult (p : ℚ) : ℚ :=
  if p > 0.6 then 1.30 else if p > 0.4 then 1.15 else 1.0

/-- The risk tier read off the branches of `predecir_envio`. -/
def riskTier (p : ℚ) : Riesgo :=
  if p > 0.6 then Riesgo.alto else if p > 0.4 then Riesgo.medio else Riesgo.bajo

/-- `load_model` (App.py lines 20-28): a `joblib.load` attempt that either
yields the classifier or raises.  On failure the function catches, displays
`st.error("❌ Error cargando modelo: ...")` and returns `None`.  The result is
the cached `modelo` together with the displayed error message, if any. -/
def load_model (attempt : Except String Modelo) : Option Modelo × Option String :=
  match attempt with
  | Except.ok m => (some m, none)
  | Except.error e => (none, some ("Error cargando modelo: " ++ e))

/-- The traffic category selected in the `selectbox` (`Clear`/`Detour`/`Heavy`). -/
inductive Trafico where
  | Clear
  | Detour
  | Heavy
deriving Repr, DecidableEq

/-- `trafico_score` map of App.py line 115: `{"Clear": 1, "Detour": 2, "Heavy": 3}`. -/
def trafico_score : Trafico → ℤ
  | Trafico.Clear => 1
  | Trafico.Detour => 2
  | Trafico.Heavy => 3

/-- `trafico_num` map of App.py line 116: `{"Clear": 0, "Detour": 1, "Heavy": 2}`. -/
def trafico_num : Trafico → ℤ
  | Trafico.Clear => 0
  | Trafico.Detour => 1
  | Trafico.Heavy => 2

/-- `riesgo_clima` (App.py line 120): `1 if (temp > 30 or hum > 80) else 0`. -/
def riesgo_clima (temp hum : ℚ) : ℤ :=
  if temp > 30 ∨ hum > 80 then 1 else 0

/-- The `datos_envio` dictionary built in tab 1 (App.py lines 126-135) from the
raw widget inputs. -/
def build_datos_envio (distancia_km : ℚ) (trafico : Trafico) (temp hum : ℚ)
    (inv_ratio waiting : ℚ) : DatosEnvio :=
  ⟨distancia_km, trafico_score trafico, riesgo_clima temp hum,
   inv_ratio, waiting, temp, hum, trafico_num trafico⟩

/-- The per-modality result rows of tab 1 (App.py lines 137-148): one call of
`predecir_envio` per key of `MODALIDADES`, with the selected profile. -/
def quote_rows (m : Modelo) (datos : DatosEnvio) (perfil : String) :
    List (String × Except QuoteError Resultado) :=
  MODALIDAD_KEYS.map (fun modalidad => (modalidad, predecir_envio m datos modalidad perfil))

/-- The guarded quote computation of tab 1 (App.py line 125):
`if modelo and st.button(...)`; when the model is `None` or the button is not
pressed, no quote rows are produced. -/
def tab1_quote (modelo : Option Modelo) (clicked : Bool) (datos : DatosEnvio)
    (perfil : String) : Option (List (String × Except QuoteError Resultado)) :=
  match modelo with
  | none => none
  | some m => if clicked then some (quote_rows m datos perfil) else none

/-- One full request run of tab 1: the load outcome feeds the guard; the first
component is the displayed load-error message, the second the quote rows. -/
def run_request (attempt : Except String Modelo) (clicked : Bool)
    (datos : DatosEnvio) (perfil : String) :
    Option String × Option (List (String × Except QuoteError Resultado)) :=
  ((load_model attempt).2, tab1_quote (load_model attempt).1 clicked datos perfil)

/-- Alert severities of tab 2: `st.success` → `ok`, `st.warning` → `warning`,
`st.error` → `critical`. -/
inductive Status where
  | ok
  | warning
  | critical
deriving Repr, DecidableEq

/-- The four alert statuses reported by tab 2. -/
structure Alertas where
  trafico : Status
  clima : Status
  inventario : Status
  espera : Status
deriving Repr, DecidableEq

/-- The four independent threshold checks of tab 2 (App.py lines 171-189). -/
def evaluar_alertas (trafico_alert : Trafico) (temp_alert hum_alert : ℚ)
    (inv_ratio_alert waiting_alert : ℚ) : Alertas :=
  ⟨if trafico_alert = Trafico.Heavy then Status.warning else Status.ok,
   if temp_alert > 30 ∨ hum_alert > 80 then Status.warning else Status.ok,
   if inv_ratio_alert < 0.5 then Status.critical else Status.ok,
   if waiting_alert > 60 then Status.critical else Status.ok⟩

/-! ### Shared helper lemmas -/

lemma MODALIDADES_mem (s : String) (m : Mult) (h : MODALIDADES s = some m) :
    m = ⟨1.3, 0.8⟩ ∨ m = ⟨1.0, 1.0⟩ ∨ m = ⟨0.7, 1.5⟩ := by
  unfold MODALIDADES at h
  split at h <;> simp_all

lemma PERFILES_mem (s : String) (p : Mult) (h : PERFILES s = some p) :
    p = ⟨0.9, 1.2⟩ ∨ p = ⟨1.1, 0.8⟩ := by
  unfold PERFILES at h
  split at h <;> simp_all

/-- When both configuration keys are registered, `predecir_envio` succeeds and
its fields are exactly the closed-form products. -/
lemma predecir_envio_eq (modelo : Modelo) (datos : DatosEnvio)
    (modalidad perfil : String) (m p : Mult)
    (hm : MODALIDADES modalidad = some m) (hp : PERFILES perfil = some p) :
    predecir_envio modelo datos modalidad perfil = Except.ok
      ⟨modelo datos, riskTier (modelo datos),
       calcular_tiempo_base datos.Distancia_KM * riskTimeMult (modelo datos)
         * m.tiempo * p.tiempo,
       calcular_costo_base datos.Distancia_KM 10.0 * riskCostMult (modelo datos)
         * m.costo * p.costo⟩ := by
  unfold predecir_envio riskTier riskTimeMult riskCostMult
  rw [hm, hp]
  simp only [Except.ok.injEq, Resultado.mk.injEq]
  split_ifs <;> exact ⟨trivial, trivial, by ring, by ring⟩

/-- A successful quote forces both keys to be registered. -/
lemma predecir_envio_ok_registered (modelo : Modelo) (datos : DatosEnvio)
    (modalidad perfil : String) (res : Resultado)
    (h : predecir_envio modelo datos modalidad perfil = Except.ok res) :
    ∃ m p, MODALIDADES modalidad = some m ∧ PERFILES perfil = some p := by
  unfold predecir_envio at h
  split at h
  case _ m p heq1 heq2 => exact ⟨m, p, heq1, heq2⟩
  case _ => simp_all

lemma tiempo_base_pos (d : ℚ) (hd : 0 ≤ d) : 0 < calcular_tiempo_base d := by
  unfold calcular_tiempo_base
  have : (0:ℚ) ≤ d / 50.0 := by positivity
  linarith

lemma costo_base_pos (d w : ℚ) (hd : 0 ≤ d) (hw : 0 ≤ w) :
    0 < calcular_costo_base d w := by
  unfold calcular_costo_base
  linarith

lemma riskTimeMult_pos (p : ℚ) : 0 < riskTimeMult p := by
  unfold riskTimeMult
  split_ifs <;> norm_num

lemma riskCostMult_pos (p : ℚ) : 0 < riskCostMult p := by
  unfold riskCostMult
  split_ifs <;> norm_num

lemma riskTimeMult_mono (p1 p2 : ℚ) (h : p1 ≤ p2) :
    riskTimeMult p1 ≤ riskTimeMult p2 := by
  unfold riskTimeMult
  split_ifs <;> norm_num <;> linarith

lemma riskCostMult_mono (p1 p2 : ℚ) (h : p1 ≤ p2) :
    riskCostMult p1 ≤ riskCostMult p2 := by
  unfold riskCostMult
  split_ifs <;> norm_num <;> linarith

lemma Mult_tiempo_pos_of_modalidad (s : String) (m : Mult)
    (h : MODALIDADES s = some m) : 0 < m.tiempo ∧ 0 < m.costo := by
  rcases MODALIDADES_mem s m h with rfl | rfl | rfl <;> norm_num

lemma Mult_tiempo_pos_of_perfil (s : String) (p : Mult)
    (h : PERFILES s = some p) : 0 < p.tiempo ∧ 0 < p.costo := by
  rcases PERFILES_mem s p h with rfl | rfl <;> norm_num

/-! ### Claim theorems -/

/-- C3: for every distance, `calcular_tiempo_base` equals
`distanceKm / 50.0 + 2.0`; it is strictly increasing on nonnegative distances
and its value at `0` is `2.0`. -/
theorem C3_base_time_spec :
    (∀ d : ℚ, calcular_tiempo_base d = d / 50.0 + 2.0) ∧
    (∀ d1 d2 : ℚ, 0 ≤ d1 → d1 < d2 →
      calcular_tiempo_base d1 < calcular_tiempo_base d2) ∧
    calcular_tiempo_base 0 = 2.0 := by
  refine ⟨fun d => rfl, fun d1 d2 _ h => ?_, by norm_num [calcular_tiempo_base]⟩
  unfold calcular_tiempo_base
  norm_num
  linarith

/-- Witness for C3 at `d1 = 0`, `d2 = 50`. -/
theorem C3_base_time_spec_witness :
    calcular_tiempo_base 0 < calcular_tiempo_base 50 :=
  C3_base_time_spec.2.1 0 50 (by norm_num) (by norm_num)

/-- C4: `calcular_costo_base` equals `5.0 + 0.5 * distanceKm + 1.0 * weightKg`,
its value at `(0, 0)` is `5.0`, it is strictly increasing in distance and in
weight independently on nonnegative inputs, and `predecir_envio` supplies the
default weight `10.0`. -/
theorem C4_base_cost_spec :
    (∀ d w : ℚ, calcular_costo_base d w = 5.0 + 0.5 * d + 1.0 * w) ∧
    calcular_costo_base 0 0 = 5.0 ∧
    (∀ w d1 d2 : ℚ, 0 ≤ w → 0 ≤ d1 → d1 < d2 →
      calcular_costo_base d1 w < calcular_costo_base d2 w) ∧
    (∀ d w1 w2 : ℚ, 0 ≤ d → 0 ≤ w1 → w1 < w2 →
      calcular_costo_base d w1 < calcular_costo_base d w2) := by
  refine ⟨fun d w => rfl, by norm_num [calcular_costo_base],
    fun w d1 d2 _ _ h => ?_, fun d w1 w2 _ _ h => ?_⟩ <;>
  · unfold calcular_costo_base
    linarith

/-- Witness for C4 at `w = 10`, `d1 = 0`, `d2 = 50` and `d = 50`,
`w1 = 0`, `w2 = 10`. -/
theorem C4_base_cost_spec_witness :
    calcular_costo_base 0 10 < calcular_costo_base 50 10 ∧
    calcular_costo_base 50 0 < calcular_costo_base 50 10 :=
  ⟨C4_base_cost_spec.2.2.1 10 0 50 (by norm_num) (by norm_num) (by norm_num),
   C4_base_cost_spec.2.2.2 50 0 10 (by norm_num) (by norm_num) (by norm_num)⟩

/-- A concrete feature record: distance 50 km, heavy traffic, 25 °C, 60 %
humidity, inventory ratio 1.0, waiting 10 min (the tab-1 defaults). -/
def datos_test : DatosEnvio :=
  build_datos_envio 50 Trafico.Heavy 25 60 1.0 10

/-- C1: whenever both the modality key and the profile key are registered
(the tables hold exactly the multipliers of App.py lines 33-42), the quote
succeeds and its `tiempo_horas` is
`calcular_tiempo_base d * riskTimeMult p * modality.tiempo * profile.tiempo`
and its `costo_usd` is
`calcular_costo_base d 10.0 * riskCostMult p * modality.costo * profile.costo`;
over ℚ the equality is exact, hence within any relative tolerance. -/
theorem C1_quote_product_formula :
    (MODALIDADES "económico" = some ⟨1.3, 0.8⟩ ∧
     MODALIDADES "estándar" = some ⟨1.0, 1.0⟩ ∧
     MODALIDADES "express" = some ⟨0.7, 1.5⟩ ∧
     PERFILES "urgente" = some ⟨0.9, 1.2⟩ ∧
     PERFILES "económico" = some ⟨1.1, 0.8⟩) ∧
    ∀ (modelo : Modelo) (datos : DatosEnvio) (modalidad perfil : String)
      (m p : Mult),
      MODALIDADES modalidad = some m → PERFILES perfil = some p →
      ∃ res : Resultado,
        predecir_envio modelo datos modalidad perfil = Except.ok res ∧
        res.tiempo_horas = calcular_tiempo_base datos.Distancia_KM
          * riskTimeMult (modelo datos) * m.tiempo * p.tiempo ∧
        res.costo_usd = calcular_costo_base datos.Distancia_KM 10.0
          * riskCostMult (modelo datos) * m.costo * p.costo := by
  refine ⟨⟨rfl, rfl, rfl, rfl, rfl⟩, fun modelo datos modalidad perfil m p hm hp => ?_⟩
  exact ⟨_, predecir_envio_eq modelo datos modalidad perfil m p hm hp, rfl, rfl⟩

/-- Witness for C1: the classifier pinned at `p = 0.75`, distance 50 km,
modality `express`, profile `urgente`. -/
theorem C1_quote_product_formula_witness :
    ∃ res : Resultado,
      predecir_envio (fun _ => 0.75) datos_test "express" "urgente" = Except.ok res ∧
      res.tiempo_horas = calcular_tiempo_base datos_test.Distancia_KM
        * riskTimeMult ((fun _ => (0.75:ℚ)) datos_test)
        * (Mult.mk 0.7 1.5).tiempo * (Mult.mk 0.9 1.2).tiempo ∧
      res.costo_usd = calcular_costo_base datos_test.Distancia_KM 10.0
        * riskCostMult ((fun _ => (0.75:ℚ)) datos_test)
        * (Mult.mk 0.7 1.5).costo * (Mult.mk 0.9 1.2).costo :=
  C1_quote_product_formula.2 (fun _ => 0.75) datos_test "express" "urgente"
    ⟨0.7, 1.5⟩ ⟨0.9, 1.2⟩ rfl rfl

/-- C2: the risk tier of every successful quote is a function of the raw
probability alone, with exactly the two breakpoints `0.6` and `0.4`
(exclusive on the high side): `p > 0.6` is `alto` with multipliers
time `1.5` / cost `1.30`, `0.4 < p ≤ 0.6` is `medio` with `1.2` / `1.15`,
`p ≤ 0.4` is `bajo` with `1.0` / `1.0`; in particular `0.6` maps to `medio`,
`0.4` to `bajo`, `0.61` to `alto` and `0` to `bajo`. -/
theorem C2_risk_tier_breakpoints :
    (∀ (modelo : Modelo) (datos : DatosEnvio) (modalidad perfil : String)
        (res : Resultado),
      predecir_envio modelo datos modalidad perfil = Except.ok res →
      res.riesgo = riskTier (modelo datos)) ∧
    (∀ q : ℚ, (riskTier q = Riesgo.alto ↔ q > 0.6) ∧
      (riskTier q = Riesgo.medio ↔ 0.4 < q ∧ q ≤ 0.6) ∧
      (riskTier q = Riesgo.bajo ↔ q ≤ 0.4)) ∧
    (∀ q : ℚ, q > 0.6 → riskTimeMult q = 1.5 ∧ riskCostMult q = 1.30) ∧
    (∀ q : ℚ, 0.4 < q → q ≤ 0.6 → riskTimeMult q = 1.2 ∧ riskCostMult q = 1.15) ∧
    (∀ q : ℚ, q ≤ 0.4 → riskTimeMult q = 1.0 ∧ riskCostMult q = 1.0) ∧
    riskTier 0.6 = Riesgo.medio ∧ riskTier 0.4 = Riesgo.bajo ∧
    riskTier 0.61 = Riesgo.alto ∧ riskTier 0 = Riesgo.bajo := by
  refine ⟨?_, ?_, ?_, ?_, ?_, ?_, ?_, ?_, ?_⟩
  · intro modelo datos modalidad perfil res h
    obtain ⟨m, p, hm, hp⟩ :=
      predecir_envio_ok_registered modelo datos modalidad perfil res h
    rw [predecir_envio_eq modelo datos modalidad perfil m p hm hp] at h
    injection h with h
    exact h ▸ rfl
  · intro q
    unfold riskTier
    split_ifs with h1 h2
    · exact ⟨⟨fun _ => h1, fun _ => rfl⟩,
        ⟨fun h => (nomatch h), fun h => ((not_le.mpr h1) h.2).elim⟩,
        ⟨fun h => (nomatch h), fun h => absurd h1 (by linarith)⟩⟩
    · exact ⟨⟨fun h => (nomatch h), fun h => (h1 h).elim⟩,
        ⟨fun _ => ⟨h2, not_lt.mp h1⟩, fun _ => rfl⟩,
        ⟨fun h => (nomatch h), fun h => ((not_le.mpr h2) h).elim⟩⟩
    · exact ⟨⟨fun h => (nomatch h), fun h => (h1 h).elim⟩,
        ⟨fun h => (nomatch h), fun h => (h2 h.1).elim⟩,
        ⟨fun _ => not_lt.mp h2, fun _ => rfl⟩⟩
  · intro q h
    unfold riskTimeMult riskCostMult
    rw [if_pos h, if_pos h]
    exact ⟨rfl, rfl⟩
  · intro q h4 h6
    have h1 : ¬ q > 0.6 := not_lt.mpr h6
    unfold riskTimeMult riskCostMult
    rw [if_neg h1, if_pos h4, if_neg h1, if_pos h4]
    exact ⟨rfl, rfl⟩
  · intro q h
    have h2 : ¬ q > 0.4 := not_lt.mpr h
    have h1 : ¬ q > 0.6 := by intro hc; exact h2 (by linarith)
    unfold riskTimeMult riskCostMult
    rw [if_neg h1, if_neg h2, if_neg h1, if_neg h2]
    exact ⟨rfl, rfl⟩
  · norm_num [riskTier]
  · norm_num [riskTier]
  · norm_num [riskTier]
  · norm_num [riskTier]

/-- Witness for C2: the concrete quote at `p = 0.75` carries tier
`riskTier 0.75`, and the breakpoint facts instantiated at `0.61`. -/
theorem C2_risk_tier_breakpoints_witness :
    (Resultado.mk ((fun _ => (0.75:ℚ)) datos_test)
      (riskTier ((fun _ => (0.75:ℚ)) datos_test))
      (calcular_tiempo_base datos_test.Distancia_KM
        * riskTimeMult ((fun _ => (0.75:ℚ)) datos_test)
        * (Mult.mk 0.7 1.5).tiempo * (Mult.mk 0.9 1.2).tiempo)
      (calcular_costo_base datos_test.Distancia_KM 10.0
        * riskCostMult ((fun _ => (0.75:ℚ)) datos_test)
        * (Mult.mk 0.7 1.5).costo * (Mult.mk 0.9 1.2).costo)).riesgo
      = riskTier ((fun _ => (0.75:ℚ)) datos_test) ∧
    ((0.61:ℚ) > 0.6) ∧ riskTimeMult 0.61 = 1.5 ∧ riskCostMult 0.61 = 1.30 :=
  ⟨C2_risk_tier_breakpoints.1 (fun _ => 0.75) datos_test "express" "urgente" _
      (predecir_envio_eq (fun _ => 0.75) datos_test "express" "urgente"
        ⟨0.7, 1.5⟩ ⟨0.9, 1.2⟩ rfl rfl),
   by norm_num,
   (C2_risk_tier_breakpoints.2.2.1 0.61 (by norm_num)).1,
   (C2_risk_tier_breakpoints.2.2.1 0.61 (by norm_num)).2⟩

/-- C5: an unregistered modality or profile key makes `predecir_envio` fail
with the invalid-configuration condition and produce no quote; in particular
modality `"overnight"` always fails; and a successful quote forces both keys
to be registered (no silent default multiplier). -/
theorem C5_unknown_key_invalid_configuration :
    (∀ (modelo : Modelo) (datos : DatosEnvio) (modalidad perfil : String),
      MODALIDADES modalidad = none ∨ PERFILES perfil = none →
      predecir_envio modelo datos modalidad perfil =
        Except.error QuoteError.invalidConfiguration) ∧
    (∀ (modelo : Modelo) (datos : DatosEnvio) (perfil : String),
      predecir_envio modelo datos "overnight" perfil =
        Except.error QuoteError.invalidConfiguration) ∧
    (∀ (modelo : Modelo) (datos : DatosEnvio) (modalidad perfil : String)
        (res : Resultado),
      predecir_envio modelo datos modalidad perfil = Except.ok res →
      ∃ m p, MODALIDADES modalidad = some m ∧ PERFILES perfil = some p) := by
  refine ⟨?_, ?_, predecir_envio_ok_registered⟩
  · intro modelo datos modalidad perfil h
    unfold predecir_envio
    rcases h with h | h
    · rw [h]
    · cases hM : MODALIDADES modalidad
      · rfl
      · rw [h]
  · intro modelo datos perfil
    have h : MODALIDADES "overnight" = none := rfl
    unfold predecir_envio
    rw [h]

/-- Witness for C5 at modality `"overnight"`, profile `"urgente"`. -/
theorem C5_unknown_key_invalid_configuration_witness :
    predecir_envio (fun _ => 0.5) datos_test "overnight" "urgente" =
      Except.error QuoteError.invalidConfiguration :=
  C5_unknown_key_invalid_configuration.1 (fun _ => 0.5) datos_test
    "overnight" "urgente" (Or.inl rfl)

/-- C6: when the classifier fails to load, `load_model` yields no model and
displays the load error; the tab-1 guard then produces no quote rows at all,
for every request. -/
theorem C6_unavailable_model_no_quote :
    (∀ e : String, load_model (Except.error e) =
      (none, some ("Error cargando modelo: " ++ e))) ∧
    (∀ (clicked : Bool) (datos : DatosEnvio) (perfil : String),
      tab1_quote none clicked datos perfil = none) ∧
    (∀ (e : String) (clicked : Bool) (datos : DatosEnvio) (perfil : String),
      run_request (Except.error e) clicked datos perfil =
        (some ("Error cargando modelo: " ++ e), none)) :=
  ⟨fun _ => rfl, fun _ _ _ => rfl, fun _ _ _ _ => rfl⟩

/-- C7: the four tab-2 checks are independent thresholds with no aggregation:
traffic is `warning` iff `Heavy` (else `ok`), weather is `warning` iff
`temp > 30 ∨ hum > 80` (else `ok`), inventory is `critical` iff
`ratio < 0.5` (else `ok`), waiting is `critical` iff `waiting > 60`
(else `ok`); each status depends only on its own inputs. -/
theorem C7_alert_thresholds :
    ∀ (t : Trafico) (temp hum inv_ratio waiting : ℚ),
      ((evaluar_alertas t temp hum inv_ratio waiting).trafico = Status.warning
        ↔ t = Trafico.Heavy) ∧
      ((evaluar_alertas t temp hum inv_ratio waiting).trafico = Status.ok
        ↔ ¬ t = Trafico.Heavy) ∧
      ((evaluar_alertas t temp hum inv_ratio waiting).clima = Status.warning
        ↔ (temp > 30 ∨ hum > 80)) ∧
      ((evaluar_alertas t temp hum inv_ratio waiting).clima = Status.ok
        ↔ ¬ (temp > 30 ∨ hum > 80)) ∧
      ((evaluar_alertas t temp hum inv_ratio waiting).inventario = Status.critical
        ↔ inv_ratio < 0.5) ∧
      ((evaluar_alertas t temp hum inv_ratio waiting).inventario = Status.ok
        ↔ ¬ inv_ratio < 0.5) ∧
      ((evaluar_alertas t temp hum inv_ratio waiting).espera = Status.critical
        ↔ waiting > 60) ∧
      ((evaluar_alertas t temp hum inv_ratio waiting).espera = Status.ok
        ↔ ¬ waiting > 60) ∧
      (∀ temp2 hum2 inv2 w2 : ℚ,
        (evaluar_alertas t temp2 hum2 inv2 w2).trafico =
          (evaluar_alertas t temp hum inv_ratio waiting).trafico) ∧
      (∀ (t2 : Trafico) (inv2 w2 : ℚ),
        (evaluar_alertas t2 temp hum inv2 w2).clima =
          (evaluar_alertas t temp hum inv_ratio waiting).clima) ∧
      (∀ (t2 : Trafico) (temp2 hum2 w2 : ℚ),
        (evaluar_alertas t2 temp2 hum2 inv_ratio w2).inventario =
          (evaluar_alertas t temp hum inv_ratio waiting).inventario) ∧
      (∀ (t2 : Trafico) (temp2 hum2 inv2 : ℚ),
        (evaluar_alertas t2 temp2 hum2 inv2 waiting).espera =
          (evaluar_alertas t temp hum inv_ratio waiting).espera) := by
  intro t temp hum inv_ratio waiting
  refine ⟨?_, ?_, ?_, ?_, ?_, ?_, ?_, ?_,
    fun _ _ _ _ => rfl, fun _ _ _ => rfl, fun _ _ _ _ => rfl, fun _ _ _ _ => rfl⟩ <;>
  · show (if _ then _ else _) = _ ↔ _
    split_ifs with h <;> simp [h]

/-- C8: `trafico_score` encodes Clear/Detour/Heavy as 1/2/3, `trafico_num`
encodes them as 0/1/2, the two encodings agree (`num = score - 1`) for every
category, and every feature record built by tab 1 satisfies
`Traffic_Num = Trafico_Score - 1`. -/
theorem C8_traffic_encodings_consistent :
    (trafico_score Trafico.Clear = 1 ∧ trafico_score Trafico.Detour = 2 ∧
      trafico_score Trafico.Heavy = 3) ∧
    (trafico_num Trafico.Clear = 0 ∧ trafico_num Trafico.Detour = 1 ∧
      trafico_num Trafico.Heavy = 2) ∧
    (∀ t : Trafico, trafico_num t = trafico_score t - 1) ∧
    (∀ (distancia temp hum inv_ratio waiting : ℚ) (t : Trafico),
      (build_datos_envio distancia t temp hum inv_ratio waiting).Traffic_Num =
        (build_datos_envio distancia t temp hum inv_ratio waiting).Trafico_Score - 1) :=
  ⟨⟨rfl, rfl, rfl⟩, ⟨rfl, rfl, rfl⟩,
   fun t => by cases t <;> rfl,
   fun _ _ _ _ _ t => by cases t <;> rfl⟩

/-- C9: for a nonnegative distance, a classifier probability in `[0,1]` and
registered modality/profile keys, every produced quote has
`prob_retraso ∈ [0,1]`, strictly positive `tiempo_horas` and strictly
positive `costo_usd`. -/
theorem C9_quote_outputs_in_range (modelo : Modelo) (datos : DatosEnvio)
    (modalidad perfil : String) (res : Resultado)
    (hd : 0 ≤ datos.Distancia_KM)
    (hq0 : 0 ≤ modelo datos) (hq1 : modelo datos ≤ 1)
    (h : predecir_envio modelo datos modalidad perfil = Except.ok res) :
    (0 ≤ res.prob_retraso ∧ res.prob_retraso ≤ 1) ∧
    0 < res.tiempo_horas ∧ 0 < res.costo_usd := by
  obtain ⟨m, p, hm, hp⟩ :=
    predecir_envio_ok_registered modelo datos modalidad perfil res h
  rw [predecir_envio_eq modelo datos modalidad perfil m p hm hp] at h
  injection h with h
  subst h
  obtain ⟨hmt, hmc⟩ := Mult_tiempo_pos_of_modalidad modalidad m hm
  obtain ⟨hpt, hpc⟩ := Mult_tiempo_pos_of_perfil perfil p hp
  refine ⟨⟨hq0, hq1⟩, ?_, ?_⟩
  · exact mul_pos (mul_pos (mul_pos (tiempo_base_pos _ hd)
      (riskTimeMult_pos _)) hmt) hpt
  · exact mul_pos (mul_pos (mul_pos (costo_base_pos _ 10.0 hd (by norm_num))
      (riskCostMult_pos _)) hmc) hpc

/-- The quote of the test request at classifier probability `0.75`, modality
`express`, profile `urgente`. -/
def resTest : Resultado :=
  ⟨0.75, riskTier 0.75,
   calcular_tiempo_base datos_test.Distancia_KM * riskTimeMult 0.75 * 0.7 * 0.9,
   calcular_costo_base datos_test.Distancia_KM 10.0 * riskCostMult 0.75 * 1.5 * 1.2⟩

/-- The quote of the test request at classifier probability `0.3`, modality
`express`, profile `urgente`. -/
def resTestLow : Resultado :=
  ⟨0.3, riskTier 0.3,
   calcular_tiempo_base datos_test.Distancia_KM * riskTimeMult 0.3 * 0.7 * 0.9,
   calcular_costo_base datos_test.Distancia_KM 10.0 * riskCostMult 0.3 * 1.5 * 1.2⟩

/-- Witness for C9 at `p = 0.75`, distance 50, modality `express`,
profile `urgente`. -/
theorem C9_quote_outputs_in_range_witness :
    (0 ≤ resTest.prob_retraso ∧ resTest.prob_retraso ≤ 1) ∧
    0 < resTest.tiempo_horas ∧ 0 < resTest.costo_usd :=
  C9_quote_outputs_in_range (fun _ => 0.75) datos_test "express" "urgente"
    resTest (by norm_num [datos_test, build_datos_envio]) (by norm_num)
    (by norm_num)
    (predecir_envio_eq (fun _ => 0.75) datos_test "express" "urgente"
      ⟨0.7, 1.5⟩ ⟨0.9, 1.2⟩ rfl rfl)

/-- C10: with the distance, modality and profile fixed (distance nonnegative,
keys registered), both `tiempo_horas` and `costo_usd` are monotone
non-decreasing in the classifier probability over `[0,1]`. -/
theorem C10_quote_monotone_in_probability (datos : DatosEnvio)
    (modalidad perfil : String) (p1 p2 : ℚ) (res1 res2 : Resultado)
    (hd : 0 ≤ datos.Distancia_KM)
    (h0 : 0 ≤ p1) (h12 : p1 ≤ p2) (h1l : p2 ≤ 1)
    (h1 : predecir_envio (fun _ => p1) datos modalidad perfil = Except.ok res1)
    (h2 : predecir_envio (fun _ => p2) datos modalidad perfil = Except.ok res2) :
    res1.tiempo_horas ≤ res2.tiempo_horas ∧ res1.costo_usd ≤ res2.costo_usd := by
  obtain ⟨m, p, hm, hp⟩ :=
    predecir_envio_ok_registered (fun _ => p1) datos modalidad perfil res1 h1
  rw [predecir_envio_eq (fun _ => p1) datos modalidad perfil m p hm hp] at h1
  rw [predecir_envio_eq (fun _ => p2) datos modalidad perfil m p hm hp] at h2
  injection h1 with h1
  injection h2 with h2
  subst h1
  subst h2
  obtain ⟨hmt, hmc⟩ := Mult_tiempo_pos_of_modalidad modalidad m hm
  obtain ⟨hpt, hpc⟩ := Mult_tiempo_pos_of_perfil perfil p hp
  have hb := tiempo_base_pos datos.Distancia_KM hd
  have hc := costo_base_pos datos.Distancia_KM 10.0 hd (by norm_num)
  constructor
  · exact mul_le_mul_of_nonneg_right (mul_le_mul_of_nonneg_right
      (mul_le_mul_of_nonneg_left (riskTimeMult_mono p1 p2 h12) hb.le)
      hmt.le) hpt.le
  · exact mul_le_mul_of_nonneg_right (mul_le_mul_of_nonneg_right
      (mul_le_mul_of_nonneg_left (riskCostMult_mono p1 p2 h12) hc.le)
      hmc.le) hpc.le

/-- Witness for C10 at `p1 = 0.3 ≤ p2 = 0.75`, distance 50, modality
`express`, profile `urgente`. -/
theorem C10_quote_monotone_in_probability_witness :
    resTestLow.tiempo_horas ≤ resTest.tiempo_horas ∧
    resTestLow.costo_usd ≤ resTest.costo_usd :=
  C10_quote_monotone_in_probability datos_test "express" "urgente" 0.3 0.75
    resTestLow resTest (by norm_num [datos_test, build_datos_envio])
    (by norm_num) (by norm_num) (by norm_num)
    (predecir_envio_eq (fun _ => 0.3) datos_test "express" "urgente"
      ⟨0.7, 1.5⟩ ⟨0.9, 1.2⟩ rfl rfl)
    (predecir_envio_eq (fun _ => 0.75) datos_test "express" "urgente"
      ⟨0.7, 1.5⟩ ⟨0.9, 1.2⟩ rfl rfl)

end DeliveryApp
